import Mathlib

/-
Verification of the training-run orchestration scripts of the
Kaggle-2019-Blindness-Detection repository.

Shallow embedding of:
  * train_classifier_baseline.py  (the training driver `main`)
  * retinopathy/scripts/compute_cv.py  (the cross-validation aggregator)

Metric values are modelled as rationals, tensors as shaped integer
containers, the filesystem as a list of existing directory paths, and
fallible library calls as `Except`.
-/

namespace Retinopathy

/-- One split's recorded metrics, as stored in a checkpoint under keys
kappa_score, accuracy01 and loss. -/
structure MetricSet where
  kappa_score : ℚ
  accuracy01 : ℚ
  loss : ℚ
deriving DecidableEq

/-- The `epoch_metrics` dictionary of a checkpoint: one `MetricSet` for the
train split and one for the valid split. -/
structure EpochMetrics where
  train : MetricSet
  valid : MetricSet
deriving DecidableEq

/-- A weight tensor: a shape and (flattened) integer entries. -/
structure Tensor where
  shape : List Nat
  entries : List ℤ
deriving DecidableEq

/-- A state dict maps parameter names to tensors (association list). -/
abbrev StateDict := List (String × Tensor)

/-- A serialized training checkpoint, as produced by the external framework:
model weights, epoch number, the per-split `epoch_metrics`, and the
`valid_metrics` dictionary (the last validation epoch's metrics, stored by
the framework alongside `epoch_metrics`). -/
structure Checkpoint where
  model_state_dict : StateDict
  epoch : ℤ
  epoch_metrics : EpochMetrics
  valid_metrics : MetricSet
deriving DecidableEq

/- ----------------------------------------------------------------
C1: oversampling factor (train_classifier_baseline.py lines 172-176)
---------------------------------------------------------------- -/

/-- Line 172: `not_using_extra_data = not (use_idrid and use_messidor and
use_aptos2015)`. -/
def not_using_extra_data (use_idrid use_messidor use_aptos2015 : Bool) : Bool :=
  !(use_idrid && use_messidor && use_aptos2015)

/-- Line 176: the `oversample_factor` argument passed to `get_dataloaders`:
`2 if not_using_extra_data else 1`. -/
def oversample_factor (use_idrid use_messidor use_aptos2015 : Bool) : Nat :=
  if not_using_extra_data use_idrid use_messidor use_aptos2015 then 2 else 1

/- ----------------------------------------------------------------
C2 / C4: the cross-validation aggregator (compute_cv.py)
---------------------------------------------------------------- -/

/-- The value compute_cv.py line 29 appends to `cv` for each loaded
checkpoint: `checkpoint['valid_metrics']['kappa_score']`. -/
def extract_cv_metric (c : Checkpoint) : ℚ :=
  c.valid_metrics.kappa_score

/-- The `cv` list built by the aggregator loop (compute_cv.py lines 27-29). -/
def compute_cv_values (cps : List Checkpoint) : List ℚ :=
  cps.map extract_cv_metric

/-- Modelled from numpy (external library): `np.mean`, the sum of the
elements divided by their count. -/
def np_mean (xs : List ℚ) : ℚ :=
  xs.sum / xs.length

/-- Modelled from numpy (external library): the variance `np.std` uses with
its default `ddof=0`, namely the mean of the squared deviations from the
mean; `np.std` returns its square root.  We track the squared value so that
the development stays within ℚ; the square root is strictly monotone on
nonnegative reals, so two standard deviations agree exactly when these
squares do. -/
def np_std_sq (xs : List ℚ) : ℚ :=
  np_mean (xs.map (fun x => (x - np_mean xs) ^ 2))

/-- The pair the aggregator prints (compute_cv.py lines 31-32), with the
standard deviation represented by its square: `(np.mean cv, np.std cv ^ 2)`. -/
def compute_cv_output (cps : List Checkpoint) : ℚ × ℚ :=
  (np_mean (compute_cv_values cps), np_std_sq (compute_cv_values cps))

/-- Spec-side definition, from the spec's words: the arithmetic mean of
k1..kN. -/
def arithmeticMean (xs : List ℚ) : ℚ :=
  xs.sum / xs.length

/-- Spec-side definition, from the spec's words: the population variance
(square of the population standard deviation): the sum of squared deviations
from the mean divided by N. -/
def populationVariance (xs : List ℚ) : ℚ :=
  (xs.map (fun x => (x - arithmeticMean xs) ^ 2)).sum / xs.length

/-- Spec-side definition: the sample variance (square of the sample standard
deviation): the sum of squared deviations divided by N - 1.  Used only to
witness that the population and sample notions genuinely differ. -/
def sampleVariance (xs : List ℚ) : ℚ :=
  (xs.map (fun x => (x - arithmeticMean xs) ^ 2)).sum / ((xs.length : ℚ) - 1)

/-- A checkpoint whose `epoch_metrics.valid.kappa_score` (value 1) differs
from its `valid_metrics.kappa_score` (value 0); distinguishes the two key
paths a reader of the checkpoint can take. -/
def cexCheckpointC2 : Checkpoint :=
  { model_state_dict := []
    epoch := 0
    epoch_metrics := { train := ⟨0, 0, 0⟩, valid := ⟨1, 0, 0⟩ }
    valid_metrics := ⟨0, 0, 0⟩ }

/- ----------------------------------------------------------------
C3: weight transfer (train_classifier_baseline.py lines 110-122)
---------------------------------------------------------------- -/

/-- Lookup of a parameter name in a state dict (first match). -/
def sdLookup (sd : StateDict) (name : String) : Option Tensor :=
  match sd with
  | [] => none
  | (n, t) :: rest => if n = name then some t else sdLookup rest name

/-- Replace the tensor stored under `name` (first match), keeping every
other entry. -/
def sdUpdate (sd : StateDict) (name : String) (t : Tensor) : StateDict :=
  match sd with
  | [] => []
  | (n, t0) :: rest =>
      if n = name then (n, t) :: rest else (n, t0) :: sdUpdate rest name t

/-- Modelled from PyTorch (external library): `model.load_state_dict` with
`strict=False` on a single-entry state dict, as called on line 119-120.
A key the model does not have is silently ignored (strict=False); a key the
model has with a different tensor shape raises a size-mismatch error and
copies nothing; otherwise the parameter tensor is copied into the model. -/
def load_state_dict_single (model : StateDict) (name : String) (t : Tensor) :
    Except String StateDict :=
  match sdLookup model name with
  | none => Except.ok model
  | some t0 =>
      if t0.shape = t.shape then Except.ok (sdUpdate model name t)
      else Except.error ("size mismatch for parameter " ++ name)

/-- One iteration of the transfer loop (lines 117-122): try to load the
single tensor; any exception is caught (and printed), leaving the model
unchanged. -/
def transfer_step (m : StateDict) (nt : String × Tensor) : StateDict :=
  match load_state_dict_single m nt.1 nt.2 with
  | Except.ok m2 => m2
  | Except.error _ => m

/-- The whole transfer loop over the donor checkpoint's
`model_state_dict` items (lines 117-122). -/
def transfer_weights (model pretrained : StateDict) : StateDict :=
  pretrained.foldl transfer_step model

/-- Demonstration model state dict for the transfer claim: two parameters
with shapes [2] and [3]. -/
def demoModel : StateDict :=
  [("a", ⟨[2], [1, 2]⟩), ("b", ⟨[3], [0, 0, 0]⟩)]

/-- Demonstration donor state dict: parameter a matches the model's shape,
parameter b has an incompatible shape [4]. -/
def demoDonor : StateDict :=
  [("a", ⟨[2], [5, 6]⟩), ("b", ⟨[4], [7, 7, 7, 7]⟩)]

/- ----------------------------------------------------------------
C6: resume restore policy (train_classifier_baseline.py lines 124-159)
---------------------------------------------------------------- -/

/-- Log lines the resume path prints about the optimizer restore. -/
inductive RestoreLog where
  | restoredOptimizer
  | failedRestoreOptimizer (msg : String)
deriving DecidableEq

/-- The resume path of `main`: line 127 unpacks the model state with no
guard (an exception propagates); lines 154-159 unpack the optimizer state
inside try/except, printing either a success or a failure line and
continuing in both cases.  The two unpack operations are abstracted as
their `Except` results. -/
def resume_restore (unpack_model unpack_optimizer : Except String Unit) :
    Except String RestoreLog := do
  let _ ← unpack_model
  match unpack_optimizer with
  | Except.ok _ => Except.ok RestoreLog.restoredOptimizer
  | Except.error e => Except.ok (RestoreLog.failedRestoreOptimizer e)

/- ----------------------------------------------------------------
C5: resume summary printing (train_classifier_baseline.py lines 124-143)
---------------------------------------------------------------- -/

/-- The seven values the driver prints after loading a resume checkpoint:
the epoch, then the train split's kappa/accuracy01/loss, then the valid
split's kappa/accuracy01/loss. -/
structure ResumeSummary where
  epoch : ℤ
  train_kappa : ℚ
  train_accuracy01 : ℚ
  train_loss : ℚ
  valid_kappa : ℚ
  valid_accuracy01 : ℚ
  valid_loss : ℚ
deriving DecidableEq

/-- Lines 129-143: the driver reads `checkpoint['epoch']` and
`checkpoint['epoch_metrics'][split][metric]` for both splits and the three
metrics, and prints each value as-is. -/
def resume_printed (c : Checkpoint) : ResumeSummary :=
  { epoch := c.epoch
    train_kappa := c.epoch_metrics.train.kappa_score
    train_accuracy01 := c.epoch_metrics.train.accuracy01
    train_loss := c.epoch_metrics.train.loss
    valid_kappa := c.epoch_metrics.valid.kappa_score
    valid_accuracy01 := c.epoch_metrics.valid.accuracy01
    valid_loss := c.epoch_metrics.valid.loss }

/- ----------------------------------------------------------------
C7 / C9 / C10: run naming, log directory, checkpoint copy
(train_classifier_baseline.py lines 94-104, 189-192, 271-273)
---------------------------------------------------------------- -/

/-- Modelled from Python str() as used by the f-string on the fold value:
an integer renders in decimal, None renders as the literal text None. -/
def pyStrOptInt : Option ℤ → String
  | none => "None"
  | some i => toString i

/-- Lines 98-104: the checkpoint_prefix value: model name, a random run
name and the fold value joined by underscores, followed by one suffix per
enabled auxiliary dataset. -/
def checkpoint_tag (model_name random_name : String) (fold : Option ℤ)
    (use_aptos2015 use_messidor use_idrid : Bool) : String :=
  model_name ++ "_" ++ random_name ++ "_fold" ++ pyStrOptInt fold
    ++ (if use_aptos2015 then ("_aptos2015") else (""))
    ++ (if use_messidor then ("_messidor") else (""))
    ++ (if use_idrid then ("_idrid") else (""))

/-- Line 189: the run identifier classification/model/checkpoint_prefix. -/
def run_dir_tag (model_name tag : String) : String :=
  "classification/" ++ model_name ++ "/" ++ tag

/-- Line 191: log_dir = os.path.join of runs and the run identifier. -/
def log_dir_path (model_name tag : String) : String :=
  "runs/" ++ run_dir_tag model_name tag

/-- Line 271: the fold-agnostic source path of the best checkpoint inside
the run's checkpoints folder. -/
def best_checkpoint_path (log_dir : String) : String :=
  log_dir ++ "/checkpoints/" ++ "best.pth"

/-- Line 272: the destination path of the post-run clean_checkpoint copy. -/
def model_checkpoint_path (log_dir tag : String) : String :=
  log_dir ++ "/checkpoints/" ++ tag ++ "_best.pth"

/-- Substring containment: the needle occurs contiguously inside the hay. -/
def strContains (hay needle : String) : Prop :=
  List.IsInfix needle.data hay.data

/- ----------------------------------------------------------------
C8: callbacks and trainer invocation
(train_classifier_baseline.py lines 232-267)
---------------------------------------------------------------- -/

/-- The main metric name passed to the trainer and to early stopping. -/
def kappa_metric : String := "kappa_score"

/-- The metric name passed to the batch-visualization callback. -/
def accuracy_metric : String := "accuracy01"

/-- The callbacks the driver can hand to the trainer. -/
inductive Callback where
  | accuracy
  | cappaScore
  | confusionMatrix
  | negativeMining
  | mixup
  | earlyStopping (patience : ℤ) (metric : String) (minimize : Bool)
  | showPolarBatches (metric : String) (minimize : Bool)
deriving DecidableEq

/-- Lines 232-250: the callback list: four unconditional callbacks, then
MixupCallback when --mixup is set, then EarlyStoppingCallback when
early_stopping is truthy in the Python sense (the source tests
`if early_stopping:` on an int-or-None defaulting to None, so a value of 0
behaves like absent), then ShowPolarBatchesCallback when --show is set. -/
def build_callbacks (mixup : Bool) (early_stopping : Option ℤ)
    (show_batches : Bool) : List Callback :=
  [Callback.accuracy, Callback.cappaScore, Callback.confusionMatrix,
    Callback.negativeMining]
  ++ (if mixup then [Callback.mixup] else [])
  ++ (match early_stopping with
      | some p => if p ≠ 0 then [Callback.earlyStopping p kappa_metric false]
                  else []
      | none => [])
  ++ (if show_batches then [Callback.showPolarBatches accuracy_metric false]
      else [])

/-- The runner.train arguments the claim is about. -/
structure TrainerInvocation where
  callbacks : List Callback
  main_metric : String
  minimize_metric : Bool
deriving DecidableEq

/-- Lines 252-267: the trainer is invoked with the assembled callbacks,
main metric kappa_score, and minimize_metric False. -/
def trainer_invocation (mixup : Bool) (early_stopping : Option ℤ)
    (show_batches : Bool) : TrainerInvocation :=
  { callbacks := build_callbacks mixup early_stopping show_batches
    main_metric := kappa_metric
    minimize_metric := false }

/- ----------------------------------------------------------------
C9: log directory creation (train_classifier_baseline.py lines 189-192)
---------------------------------------------------------------- -/

/-- Modelled from Python os.makedirs over an abstract filesystem (the list
of existing directories): with exist_ok False an existing target raises
FileExistsError, otherwise the directory is created. -/
def makedirs (fs : List String) (path : String) (exist_ok : Bool) :
    Except String (List String) :=
  if path ∈ fs then
    if exist_ok then Except.ok fs
    else Except.error ("FileExistsError: " ++ path)
  else Except.ok (path :: fs)

/-- Lines 189-267 abstracted to the claim: create the per-run log directory
with exist_ok False (line 192) and only on success reach the training
invocation; the Bool in the result records that the trainer ran. -/
def setup_logdir_and_train (fs : List String) (log_dir : String) :
    Except String (List String × Bool) := do
  let fs2 ← makedirs fs log_dir false
  Except.ok (fs2, true)

/- ----------------------------------------------------------------
C10: fold list defaulting (train_classifier_baseline.py lines 94-97)
---------------------------------------------------------------- -/

/-- Lines 94-95: if folds is None or the fold list is empty, the driver
substitutes the single-element list containing None; otherwise each given
integer fold is used. -/
def effective_folds (folds : Option (List ℤ)) : List (Option ℤ) :=
  match folds with
  | none => [none]
  | some l => if l.length = 0 then [none] else l.map some

end Retinopathy

namespace Retinopathy

/- ----------------------------------------------------------------
Helper lemmas: state-dict lookup and update
---------------------------------------------------------------- -/

theorem sdLookup_sdUpdate_self (sd : StateDict) (name : String) (t : Tensor) :
    sdLookup (sdUpdate sd name t) name = (sdLookup sd name).map (fun _ => t) := by
  induction sd with
  | nil => rfl
  | cons hd rest ih =>
      obtain ⟨n, t0⟩ := hd
      by_cases h : n = name <;> simp [sdUpdate, sdLookup, h, ih]

theorem sdLookup_sdUpdate_other (sd : StateDict) (name n : String) (t : Tensor)
    (h : n ≠ name) : sdLookup (sdUpdate sd name t) n = sdLookup sd n := by
  induction sd with
  | nil => rfl
  | cons hd rest ih =>
      obtain ⟨n1, t0⟩ := hd
      by_cases h1 : n1 = name
      · subst h1
        simp [sdUpdate, sdLookup, Ne.symm h]
      · by_cases h2 : n1 = n <;> simp [sdUpdate, sdLookup, h1, h2, h, ih]

theorem sdLookup_transfer_step_other (m : StateDict) (nt : String × Tensor)
    (n : String) (h : n ≠ nt.1) :
    sdLookup (transfer_step m nt) n = sdLookup m n := by
  unfold transfer_step load_state_dict_single
  cases hl : sdLookup m nt.1 with
  | none => rfl
  | some t0 =>
      by_cases hs : t0.shape = nt.2.shape
      · simp [hs, sdLookup_sdUpdate_other m nt.1 n nt.2 h]
      · simp [hs]

theorem sdLookup_transfer_weights_notmem (pretrained : StateDict)
    (model : StateDict) (name : String)
    (h : name ∉ pretrained.map Prod.fst) :
    sdLookup (transfer_weights model pretrained) name = sdLookup model name := by
  induction pretrained generalizing model with
  | nil => rfl
  | cons hd rest ih =>
      simp only [List.map_cons, List.mem_cons, not_or] at h
      show sdLookup (transfer_weights (transfer_step model hd) rest) name =
        sdLookup model name
      rw [ih (transfer_step model hd) h.2,
        sdLookup_transfer_step_other model hd name h.1]

theorem sdLookup_transfer_weights_copied (pretrained : StateDict)
    (model : StateDict) (name : String) (t t0 : Tensor)
    (hnodup : (pretrained.map Prod.fst).Nodup)
    (hmem : (name, t) ∈ pretrained)
    (hm : sdLookup model name = some t0)
    (hshape : t0.shape = t.shape) :
    sdLookup (transfer_weights model pretrained) name = some t := by
  induction pretrained generalizing model t0 with
  | nil => cases hmem
  | cons hd rest ih =>
      simp only [List.map_cons, List.nodup_cons] at hnodup
      rcases List.mem_cons.mp hmem with hhd | hrest
      · subst hhd
        show sdLookup (transfer_weights
          (transfer_step model (name, t)) rest) name = some t
        rw [sdLookup_transfer_weights_notmem rest _ name hnodup.1]
        unfold transfer_step load_state_dict_single
        simp [hm, hshape, sdLookup_sdUpdate_self, Option.map]
      · have hne : name ≠ hd.1 := by
          intro hc
          exact hnodup.1 (hc ▸ List.mem_map.mpr ⟨(name, t), hrest, rfl⟩)
        show sdLookup (transfer_weights
          (transfer_step model hd) rest) name = some t
        have hstep := sdLookup_transfer_step_other model hd name hne
        exact ih (transfer_step model hd) t0 hnodup.2 hrest
          (hstep.trans hm) hshape

theorem sdLookup_transfer_weights_unmatched (pretrained : StateDict)
    (model : StateDict) (name : String) (t0 : Tensor)
    (hm : sdLookup model name = some t0)
    (hsh : ∀ t, (name, t) ∈ pretrained → t0.shape ≠ t.shape) :
    sdLookup (transfer_weights model pretrained) name = some t0 := by
  induction pretrained generalizing model with
  | nil => exact hm
  | cons hd rest ih =>
      show sdLookup (transfer_weights
        (transfer_step model hd) rest) name = some t0
      have hrest : ∀ t, (name, t) ∈ rest → t0.shape ≠ t.shape :=
        fun t ht => hsh t (List.mem_cons_of_mem hd ht)
      by_cases hne : name = hd.1
      · obtain ⟨n1, t1⟩ := hd
        replace hne : name = n1 := hne
        subst hne
        have hmis : t0.shape ≠ t1.shape :=
          hsh t1 (List.mem_cons_self _ _)
        have hstep : transfer_step model (name, t1) = model := by
          unfold transfer_step load_state_dict_single
          simp [hm, hmis]
        rw [hstep]
        exact ih model hm hrest
      · have hstep := sdLookup_transfer_step_other model hd name hne
        exact ih (transfer_step model hd) (hstep.trans hm) hrest

/- ----------------------------------------------------------------
Helper lemmas: substring containment
---------------------------------------------------------------- -/

theorem strContains_self (s : String) : strContains s s :=
  ⟨[], [], by simp⟩

theorem strContains_left (a b n : String) (h : strContains a n) :
    strContains (a ++ b) n := by
  unfold strContains at h ⊢
  rw [String.data_append]
  exact h.trans ⟨[], b.data, by simp⟩

theorem strContains_right (a b n : String) (h : strContains b n) :
    strContains (a ++ b) n := by
  unfold strContains at h ⊢
  rw [String.data_append]
  exact h.trans ⟨a.data, [], by simp⟩

theorem strContains_here (p m s : String) : strContains (p ++ m ++ s) m :=
  strContains_left (p ++ m) s m (strContains_right p m m (strContains_self m))

/-- The checkpoint_prefix value always contains the model name. -/
theorem tag_contains_model (mn rn : String) (fold : Option ℤ)
    (ua um ui : Bool) :
    strContains (checkpoint_tag mn rn fold ua um ui) mn := by
  unfold checkpoint_tag
  exact strContains_left _ _ _ (strContains_left _ _ _ (strContains_left _ _ _
    (strContains_left _ _ _ (strContains_left _ _ _ (strContains_left _ _ _
      (strContains_left _ _ _ (strContains_self mn)))))))

/-- The checkpoint_prefix value always contains the fold identifier: the
text fold followed by the printed fold value. -/
theorem tag_contains_foldid (mn rn : String) (fold : Option ℤ)
    (ua um ui : Bool) :
    strContains (checkpoint_tag mn rn fold ua um ui)
      ("fold" ++ pyStrOptInt fold) := by
  have hsplit : checkpoint_tag mn rn fold ua um ui =
      (mn ++ "_" ++ rn ++ "_") ++ ("fold" ++ pyStrOptInt fold) ++
        ((if ua then ("_aptos2015") else ("")) ++ (if um then ("_messidor") else (""))
          ++ (if ui then ("_idrid") else (""))) := by
    have hdata : ("_fold" : String).data = '_' :: ("fold" : String).data := rfl
    have hu : ("_" : String).data = ['_'] := rfl
    unfold checkpoint_tag
    apply String.ext
    simp [String.data_append, List.append_assoc, hdata, hu]
  rw [hsplit]
  exact strContains_here _ _ _

/-- Containment lifts from the checkpoint_prefix to the destination of the
post-run checkpoint copy. -/
theorem dest_contains_of_tag (log_dir tag n : String)
    (h : strContains tag n) :
    strContains (model_checkpoint_path log_dir tag) n := by
  unfold model_checkpoint_path
  exact strContains_left _ _ _ (strContains_right _ _ _ h)

/- ----------------------------------------------------------------
Theorems for the claims
---------------------------------------------------------------- -/

/-- C1: the oversample_factor argument the training driver passes to
get_dataloaders equals 1 exactly when all three auxiliary-dataset flags
(--use-idrid, --use-messidor, --use-aptos2015) are set, and equals 2
exactly when at least one of them is unset. -/
theorem oversample_factor_one_iff_all_flags (i m a : Bool) :
    (oversample_factor i m a = 1 ↔ (i = true ∧ m = true ∧ a = true)) ∧
    (oversample_factor i m a = 2 ↔ ¬(i = true ∧ m = true ∧ a = true)) := by
  cases i <;> cases m <;> cases a <;> simp [oversample_factor, not_using_extra_data]

/-- C2 counterexample: the aggregator does NOT extract the value stored under
`epoch_metrics` -> `valid` -> `kappa_score`: on `cexCheckpointC2` it extracts
0 (from `valid_metrics.kappa_score`) while `epoch_metrics.valid.kappa_score`
is 1. -/
theorem extract_cv_metric_not_epoch_metrics :
    extract_cv_metric cexCheckpointC2 ≠
      cexCheckpointC2.epoch_metrics.valid.kappa_score := by
  decide

/-- C2 (amended): for every checkpoint list, the validation kappa values the
aggregator extracts are the ones stored under the top-level `valid_metrics`
-> `kappa_score` key of each checkpoint (not under `epoch_metrics` ->
`valid` -> `kappa_score`). -/
theorem compute_cv_extracts_valid_metrics (cps : List Checkpoint) :
    compute_cv_values cps = cps.map (fun c => c.valid_metrics.kappa_score) := by
  rfl

/-- C4: for every list of checkpoints, the two numbers the aggregator prints
are the arithmetic mean of the extracted kappa values and the population
standard deviation of those values (represented throughout by its square),
in that order; and the population notion is genuinely different from the
sample notion (witnessed on the list [0, 2]). -/
theorem compute_cv_mean_and_population_std (cps : List Checkpoint) :
    compute_cv_output cps =
      (arithmeticMean (compute_cv_values cps),
       populationVariance (compute_cv_values cps)) ∧
    populationVariance [0, 2] ≠ sampleVariance [0, 2] := by
  constructor
  · simp [compute_cv_output, np_std_sq, np_mean, arithmeticMean,
      populationVariance, List.length_map]
  · norm_num [populationVariance, sampleVariance, arithmeticMean]

/-- C3: for a donor checkpoint whose weight-tensor names are a subset of the
model's parameter names, the transfer loop copies every same-named
shape-compatible tensor into the freshly initialized model, leaves every
parameter with no successfully matching donor tensor at its pre-transfer
value, and catches rather than propagates each per-tensor exception,
leaving the model unchanged by the failing tensor. -/
theorem transfer_weights_spec (model pretrained : StateDict)
    (hnodup : (pretrained.map Prod.fst).Nodup)
    (_hsub : ∀ n, n ∈ pretrained.map Prod.fst →
      (sdLookup model n).isSome = true) :
    (∀ name t t0, (name, t) ∈ pretrained → sdLookup model name = some t0 →
      t0.shape = t.shape →
      sdLookup (transfer_weights model pretrained) name = some t) ∧
    (∀ name t0, sdLookup model name = some t0 →
      (∀ t, (name, t) ∈ pretrained → t0.shape ≠ t.shape) →
      sdLookup (transfer_weights model pretrained) name = some t0) ∧
    (∀ name t e, load_state_dict_single model name t = Except.error e →
      transfer_step model (name, t) = model) := by
  refine ⟨?_, ?_, ?_⟩
  · intro name t t0 hmem hm hs
    exact sdLookup_transfer_weights_copied pretrained model name t t0
      hnodup hmem hm hs
  · intro name t0 hm hsh
    exact sdLookup_transfer_weights_unmatched pretrained model name t0 hm hsh
  · intro name t e he
    unfold transfer_step
    simp [he]

/-- C3 witness: on the demonstration model and donor, the shape-compatible
parameter a is copied from the donor and the shape-mismatched parameter b
keeps its initialized value. -/
theorem transfer_weights_spec_witness :
    sdLookup (transfer_weights demoModel demoDonor) ("a") =
      some ⟨[2], [5, 6]⟩ ∧
    sdLookup (transfer_weights demoModel demoDonor) ("b") =
      some ⟨[3], [0, 0, 0]⟩ := by
  have h := transfer_weights_spec demoModel demoDonor (by decide)
    (by
      intro n hn
      simp [demoDonor] at hn
      rcases hn with rfl | rfl <;> decide)
  refine ⟨h.1 ("a") ⟨[2], [5, 6]⟩ ⟨[2], [1, 2]⟩ (by decide) (by decide)
      (by decide), ?_⟩
  refine h.2.1 ("b") ⟨[3], [0, 0, 0]⟩ (by decide) ?_
  intro t ht
  simp [demoDonor] at ht
  subst ht
  decide

/-- C6: the resume path is best-effort for the optimizer and fail-fast for
the model: when the model unpack succeeds, the run continues no matter what
the optimizer unpack did, a failed optimizer unpack being reported in the
printed log instead of raised; when the model unpack raises, the same
exception propagates out of the resume path. -/
theorem resume_restore_policy (um uo : Except String Unit) :
    (um = Except.ok () → ∀ e, uo = Except.error e →
      resume_restore um uo =
        Except.ok (RestoreLog.failedRestoreOptimizer e)) ∧
    (um = Except.ok () → uo = Except.ok () →
      resume_restore um uo = Except.ok RestoreLog.restoredOptimizer) ∧
    (∀ e, um = Except.error e → resume_restore um uo = Except.error e) := by
  refine ⟨?_, ?_, ?_⟩
  · rintro rfl e rfl
    rfl
  · rintro rfl rfl
    rfl
  · rintro e rfl
    rfl

/-- C6 witness: with a failing optimizer unpack the resume path still
succeeds and logs the failure, while a failing model unpack propagates its
exception. -/
theorem resume_restore_policy_witness :
    resume_restore (Except.ok ()) (Except.error ("optimizer boom")) =
      Except.ok (RestoreLog.failedRestoreOptimizer ("optimizer boom")) ∧
    resume_restore (Except.error ("model boom")) (Except.ok ()) =
      Except.error ("model boom") :=
  ⟨(resume_restore_policy (Except.ok ()) (Except.error ("optimizer boom"))).1
      rfl ("optimizer boom") rfl,
    (resume_restore_policy (Except.error ("model boom")) (Except.ok ())).2.2
      ("model boom") rfl⟩

/-- C7: for every fold, the destination of the post-run checkpoint copy
contains both the model name and the fold identifier (the text fold
followed by the printed fold value), while the source checkpoint path ends
in the fold-agnostic file name best.pth. -/
theorem model_checkpoint_dest_tagged (mn rn : String) (fold : Option ℤ)
    (ua um ui : Bool) :
    strContains
      (model_checkpoint_path
        (log_dir_path mn (checkpoint_tag mn rn fold ua um ui))
        (checkpoint_tag mn rn fold ua um ui)) mn ∧
    strContains
      (model_checkpoint_path
        (log_dir_path mn (checkpoint_tag mn rn fold ua um ui))
        (checkpoint_tag mn rn fold ua um ui))
      ("fold" ++ pyStrOptInt fold) ∧
    (∀ d : String, best_checkpoint_path d =
      d ++ "/checkpoints/" ++ "best.pth") := by
  refine ⟨?_, ?_, fun d => rfl⟩
  · exact dest_contains_of_tag _ _ _ (tag_contains_model mn rn fold ua um ui)
  · exact dest_contains_of_tag _ _ _ (tag_contains_foldid mn rn fold ua um ui)

/-- C8 counterexample: an early-stopping patience of 0 is given (the
--early-stopping option is present, not None) yet no early-stopping
callback is in the assembled list, because the source tests the value for
Python truthiness. -/
theorem trainer_es_zero_counterexample :
    (some (0 : ℤ) ≠ (none : Option ℤ)) ∧
    ∀ p m b, Callback.earlyStopping p m b ∉
      (trainer_invocation false (some 0) false).callbacks := by
  constructor
  · simp
  · intro p m b
    simp [trainer_invocation, build_callbacks]

/-- C8 (amended): the callback list always contains the accuracy,
kappa-scoring, confusion-matrix and hard-negative-mining callbacks; it
contains the mixup callback iff --mixup is set, an early-stopping callback
iff a nonzero early-stopping patience is given (Python truthiness of the
option value), and the batch-visualization callback iff --show is set; and
the trainer is always invoked with main metric kappa_score and
minimization disabled. -/
theorem trainer_invocation_spec (mixup : Bool) (es : Option ℤ)
    (show_batches : Bool) :
    Callback.accuracy ∈ (trainer_invocation mixup es show_batches).callbacks ∧
    Callback.cappaScore ∈
      (trainer_invocation mixup es show_batches).callbacks ∧
    Callback.confusionMatrix ∈
      (trainer_invocation mixup es show_batches).callbacks ∧
    Callback.negativeMining ∈
      (trainer_invocation mixup es show_batches).callbacks ∧
    (Callback.mixup ∈ (trainer_invocation mixup es show_batches).callbacks ↔
      mixup = true) ∧
    ((∃ p, Callback.earlyStopping p kappa_metric false ∈
        (trainer_invocation mixup es show_batches).callbacks) ↔
      (∃ p, es = some p ∧ p ≠ 0)) ∧
    (Callback.showPolarBatches accuracy_metric false ∈
        (trainer_invocation mixup es show_batches).callbacks ↔
      show_batches = true) ∧
    (trainer_invocation mixup es show_batches).main_metric = kappa_metric ∧
    (trainer_invocation mixup es show_batches).minimize_metric = false := by
  rcases es with _ | p
  · cases mixup <;> cases show_batches <;>
      simp [trainer_invocation, build_callbacks]
  · by_cases hp : p = 0
    · subst hp
      cases mixup <;> cases show_batches <;>
        simp [trainer_invocation, build_callbacks]
    · cases mixup <;> cases show_batches <;>
        simp [trainer_invocation, build_callbacks, hp]

/-- C9: the per-run log directory is created with exist_ok False, so when a
directory of that exact name already exists the run aborts with a
FileExistsError before the training invocation is reached, and otherwise
the directory is created and training runs. -/
theorem logdir_exists_aborts (fs : List String) (mn tag : String) :
    (log_dir_path mn tag ∈ fs →
      setup_logdir_and_train fs (log_dir_path mn tag) =
        Except.error ("FileExistsError: " ++ log_dir_path mn tag)) ∧
    (log_dir_path mn tag ∉ fs →
      setup_logdir_and_train fs (log_dir_path mn tag) =
        Except.ok (log_dir_path mn tag :: fs, true)) := by
  constructor
  · intro h
    simp [setup_logdir_and_train, makedirs, h, Bind.bind, Except.bind]
  · intro h
    simp [setup_logdir_and_train, makedirs, h, Bind.bind, Except.bind]

/-- C9 witness: with the log directory already present the run errors out;
with a fresh filesystem it is created and training runs. -/
theorem logdir_exists_aborts_witness :
    setup_logdir_and_train [log_dir_path ("m") ("t")]
        (log_dir_path ("m") ("t")) =
      Except.error ("FileExistsError: " ++ log_dir_path ("m") ("t")) ∧
    setup_logdir_and_train [] (log_dir_path ("m") ("t")) =
      Except.ok ([log_dir_path ("m") ("t")], true) :=
  ⟨(logdir_exists_aborts [log_dir_path ("m") ("t")] ("m") ("t")).1
      (List.mem_singleton.mpr rfl),
    (logdir_exists_aborts [] ("m") ("t")).2 (List.not_mem_nil _)⟩

/-- C10: with no --fold flag (or an empty fold list) the driver substitutes
the single-element list containing None, so exactly one training run
executes with fold None, and that run's checkpoint_prefix, and hence its
renamed best checkpoint, contains the literal text foldNone. -/
theorem single_none_fold_run (folds : Option (List ℤ))
    (h : folds = none ∨ folds = some []) (mn rn : String)
    (ua um ui : Bool) :
    effective_folds folds = [none] ∧
    (effective_folds folds).length = 1 ∧
    strContains (checkpoint_tag mn rn none ua um ui) ("foldNone") ∧
    strContains
      (model_checkpoint_path
        (log_dir_path mn (checkpoint_tag mn rn none ua um ui))
        (checkpoint_tag mn rn none ua um ui)) ("foldNone") := by
  have hfn : ("foldNone" : String) = "fold" ++ pyStrOptInt none := rfl
  have htag := tag_contains_foldid mn rn none ua um ui
  rw [← hfn] at htag
  refine ⟨?_, ?_, htag, dest_contains_of_tag _ _ _ htag⟩
  · rcases h with rfl | rfl <;> rfl
  · rcases h with rfl | rfl <;> rfl

/-- C10 witness: at a concrete model and run name with no folds given, the
fold list collapses to the single None fold and both the checkpoint_prefix
and the copy destination contain foldNone. -/
theorem single_none_fold_run_witness :
    effective_folds none = [none] ∧
    (effective_folds none).length = 1 ∧
    strContains (checkpoint_tag ("m") ("r") none false false false)
      ("foldNone") ∧
    strContains
      (model_checkpoint_path
        (log_dir_path ("m") (checkpoint_tag ("m") ("r") none false false false))
        (checkpoint_tag ("m") ("r") none false false false)) ("foldNone") :=
  single_none_fold_run none (Or.inl rfl) ("m") ("r") false false false

/-- C5: the epoch and six metric values the driver prints when resuming from
a checkpoint are exactly the values stored under the checkpoint's `epoch`
key and under `epoch_metrics` -> train/valid -> kappa_score/accuracy01/loss,
with no transformation. -/
theorem resume_printed_matches_checkpoint (c : Checkpoint) :
    resume_printed c =
      { epoch := c.epoch
        train_kappa := c.epoch_metrics.train.kappa_score
        train_accuracy01 := c.epoch_metrics.train.accuracy01
        train_loss := c.epoch_metrics.train.loss
        valid_kappa := c.epoch_metrics.valid.kappa_score
        valid_accuracy01 := c.epoch_metrics.valid.accuracy01
        valid_loss := c.epoch_metrics.valid.loss } := by
  rfl

end Retinopathy
